import Mathlib

/-!
Shallow embedding of the binary-options game core:
the price generator (`ChartService.generateNextDataPoint`),
the settlement model (`GameResult`), the round ledger (`GameRound`),
the round scheduler (`GameService`) and the session façade (`Game`),
translated from the TypeScript source. Machine reals are modelled as ℚ,
JavaScript `Math.round` as `jsRound`, fallible methods as `Except`.
-/

namespace BinaryFun

/-- JavaScript `Math.round`: rounds half toward positive infinity. -/
def jsRound (q : ℚ) : ℤ := ⌊q + 1/2⌋

/-- Direction of a prediction (`PredictionDirection` in `Prediction.tsx`). -/
inductive PredictionDirection where
  | up
  | down
deriving DecidableEq, Repr

/-- A user prediction (`Prediction` class in `Prediction.tsx`):
direction, stake amount, user id, creation timestamp. -/
structure Prediction where
  direction : PredictionDirection
  amount : ℚ
  userId : String
  timestamp : ℤ
deriving DecidableEq, Repr

/-- `Prediction.isCorrect`: the prediction matches the actual direction. -/
def Prediction.isCorrect (p : Prediction) (actualDirection : PredictionDirection) : Bool :=
  p.direction == actualDirection

/-- Status of a game result (`GameResultStatus` in `GameResult.tsx`). -/
inductive GameResultStatus where
  | win
  | lose
  | pending
deriving DecidableEq, Repr

/-- `GameResult.getActualDirection`, as a function of the two prices:
strictly up means `up`, otherwise (strictly down or flat) `down` —
the source comments that an unchanged price counts as down by rule. -/
def getActualDirection (startPrice endPrice : ℚ) : PredictionDirection :=
  if endPrice > startPrice then .up
  else if endPrice < startPrice then .down
  else .down

/-- `GameResult.calculateStatus`, as a function of the prediction and prices. -/
def calculateStatus (prediction : Prediction) (startPrice endPrice : ℚ) : GameResultStatus :=
  if prediction.isCorrect (getActualDirection startPrice endPrice) then .win else .lose

/-- A settled (or pending) outcome (`GameResult` class in `GameResult.tsx`). -/
structure GameResult where
  prediction : Prediction
  startPrice : ℚ
  endPrice : ℚ
  timestamp : ℤ
  reward : ℚ
  status : GameResultStatus
deriving DecidableEq, Repr

/-- JavaScript falsiness of the optional `endPrice` constructor argument:
`undefined` and `0` are falsy. -/
def jsFalsy (x : Option ℚ) : Bool :=
  match x with
  | none => true
  | some q => q == 0

/-- The `GameResult` constructor: `_endPrice = endPrice || startPrice` and
`_status = endPrice ? this.calculateStatus() : 'pending'`; `_reward = 0`. -/
def GameResult.make (prediction : Prediction) (startPrice : ℚ) (endPrice : Option ℚ)
    (timestamp : ℤ) : GameResult :=
  let e : ℚ := if jsFalsy endPrice then startPrice else endPrice.getD startPrice
  { prediction := prediction
    startPrice := startPrice
    endPrice := e
    timestamp := timestamp
    reward := 0
    status := if jsFalsy endPrice then .pending else calculateStatus prediction startPrice e }

/-- `GameResult.getActualDirection` as a method. -/
def GameResult.getActualDirection (r : GameResult) : PredictionDirection :=
  BinaryFun.getActualDirection r.startPrice r.endPrice

/-- `GameResult.setReward`. -/
def GameResult.setReward (r : GameResult) (reward : ℚ) : GameResult :=
  { r with reward := reward }

/-- `GameResult.getPriceChangePercentage`:
`((endPrice - startPrice) / startPrice) * 100`. -/
def GameResult.getPriceChangePercentage (r : GameResult) : ℚ :=
  (r.endPrice - r.startPrice) / r.startPrice * 100

/-- A chart data point (`ChartDataPoint` in `ChartData.tsx`). -/
structure ChartDataPoint where
  timestamp : ℤ
  price : ℚ
deriving DecidableEq, Repr

/-- The price computation inside `ChartService.generateNextDataPoint`:
`newPrice = Math.max(0.01, lastPrice + lastPrice*volatility*u + lastPrice*trend)`
where `u = Math.random() * 2 - 1` is the random draw in `[-1, 1]`. -/
def generateNextPrice (lastPrice volatility trend u : ℚ) : ℚ :=
  max (1/100) (lastPrice + lastPrice * volatility * u + lastPrice * trend)

/-- `ChartService.generateNextDataPoint`: the appended point carries
`lastTimestamp + fixedTimeStep` and the clamped next price. -/
def generateNextDataPoint (lastTimestamp fixedTimeStep : ℤ)
    (lastPrice volatility trend u : ℚ) : ChartDataPoint :=
  { timestamp := lastTimestamp + fixedTimeStep
    price := generateNextPrice lastPrice volatility trend u }

/-- A betting round (`GameRound` class in `GameService.tsx`):
`endTime = startTime + durationMs`, starts active with no predictions. -/
structure GameRound where
  startTime : ℤ
  endTime : ℤ
  startPrice : ℚ
  predictions : List Prediction
  isActive : Bool
deriving DecidableEq, Repr

/-- The `GameRound` constructor. -/
def GameRound.make (startTime durationMs : ℤ) (startPrice : ℚ) : GameRound :=
  { startTime := startTime
    endTime := startTime + durationMs
    startPrice := startPrice
    predictions := []
    isActive := true }

/-- `GameRound.addPrediction`: appends only while the round is active;
on an inactive round the call silently does nothing. -/
def GameRound.addPrediction (r : GameRound) (p : Prediction) : GameRound :=
  if r.isActive then { r with predictions := r.predictions ++ [p] } else r

/-- `GameRound.close`: marks the round inactive. -/
def GameRound.close (r : GameRound) : GameRound :=
  { r with isActive := false }

/-- Errors raised by `GameService.makePrediction` and `Game.makePrediction`. -/
inductive GameError where
  | roundNotActive
  | invalidAmount
  | gameNotRunning
deriving DecidableEq, Repr

/-- Mutable state of `GameService`: the current round, the accumulated
results history, and the configuration fields read by the round cycle. -/
structure GameServiceState where
  currentRound : Option GameRound
  results : List GameResult
  roundDurationMs : ℤ
  winMultiplier : ℚ
deriving DecidableEq, Repr

/-- `GameService.makePrediction`: throws if there is no current round or it is
inactive; otherwise creates the `Prediction` (timestamped now), records it in
the current round and returns it. -/
def GameServiceState.makePrediction (s : GameServiceState) (direction : PredictionDirection)
    (amount : ℚ) (userId : String) (now : ℤ) :
    Except GameError (Prediction × GameServiceState) :=
  match s.currentRound with
  | none => .error .roundNotActive
  | some r =>
    if r.isActive then
      let p : Prediction := { direction := direction, amount := amount,
                              userId := userId, timestamp := now }
      .ok (p, { s with currentRound := some (r.addPrediction p) })
    else
      .error .roundNotActive

/-- `GameService.startNewRound`: replaces the current round with a fresh one
opened now at the chart's current price. -/
def GameServiceState.startNewRound (s : GameServiceState) (currentPrice : ℚ)
    (now : ℤ) : GameServiceState :=
  { s with currentRound := some (GameRound.make now s.roundDurationMs currentPrice) }

/-- The per-prediction settlement step inside `GameService.endCurrentRound`:
build the `GameResult` from the round's start price and the settlement price,
then on a win set the reward to `amount * winMultiplier`. -/
def settleResult (winMultiplier startPrice currentPrice : ℚ) (now : ℤ)
    (p : Prediction) : GameResult :=
  let result := GameResult.make p startPrice (some currentPrice) now
  if result.status = .win then result.setReward (p.amount * winMultiplier) else result

/-- `GameService.endCurrentRound`: if a current round exists, close it, settle
every prediction in submission order against the chart's current price, append
the new results to the history, and notify subscribers of exactly the new
results in order (returned as the second component). -/
def GameServiceState.endCurrentRound (s : GameServiceState) (currentPrice : ℚ)
    (now : ℤ) : GameServiceState × List GameResult :=
  match s.currentRound with
  | none => (s, [])
  | some r =>
    let closed := r.close
    let newResults :=
      closed.predictions.map (settleResult s.winMultiplier closed.startPrice currentPrice now)
    ({ s with currentRound := some closed, results := s.results ++ newResults }, newResults)

/-- The `GameService` constructor: empty history, then `startGameCycle`
immediately opens the first round. -/
def GameServiceState.init (currentPrice : ℚ) (now : ℤ) (roundDurationMs : ℤ)
    (winMultiplier : ℚ) : GameServiceState :=
  GameServiceState.startNewRound
    { currentRound := none, results := [], roundDurationMs := roundDurationMs,
      winMultiplier := winMultiplier } currentPrice now

/-- Lifecycle state of the session (`GameState` in `Game.tsx`). -/
inductive GameState where
  | waiting
  | running
  | finished
deriving DecidableEq, Repr

/-- Events of the unified stream (`GameEvent` in `Game.tsx`). -/
inductive GameEvent where
  | round_start (timestamp : ℤ) (price : ℚ)
  | round_end (timestamp : ℤ) (results : List GameResult)
  | prediction_made (direction : PredictionDirection) (amount : ℚ) (price : ℚ)
  | balance_changed (newBalance : ℚ) (change : ℚ)
  | countdown (remainingSeconds : ℤ)
  | result (result : GameResult) (winStreak : ℕ)
deriving DecidableEq, Repr

/-- Recognizer for `result` events. -/
def GameEvent.isResult : GameEvent → Bool
  | .result _ _ => true
  | _ => false

/-- Mutable state of the `Game` façade, composed with its `GameService`.
`events` is the log of events emitted to listeners, in emission order;
`countdownActive` models whether the countdown interval is scheduled. -/
structure Game where
  gameService : GameServiceState
  state : GameState
  balance : ℚ
  userId : String
  winStreak : ℕ
  countdownActive : Bool
  events : List GameEvent
deriving DecidableEq, Repr

/-- The `Game` constructor: waiting state, initial balance, zero streak,
no countdown, subscribed to the service's results. -/
def Game.init (svc : GameServiceState) (initialBalance : ℚ) (userId : String) : Game :=
  { gameService := svc, state := .waiting, balance := initialBalance,
    userId := userId, winStreak := 0, countdownActive := false, events := [] }

/-- `Game.updateBalance`: applies the signed change and emits
`balance_changed` with the new balance. -/
def Game.updateBalance (g : Game) (change : ℚ) : Game :=
  { g with balance := g.balance + change,
           events := g.events ++ [.balance_changed (g.balance + change) change] }

/-- `Game.handleGameResult` (the settlement callback): ignores other users'
results; otherwise computes `amountChange = Math.round(amount * |pct| / 100)`
from the price-change percentage, adds it on a win (streak + 1) and subtracts
it otherwise (streak reset to 0), then emits a `result` event with the
updated streak. -/
def Game.handleGameResult (g : Game) (result : GameResult) : Game :=
  if result.prediction.userId ≠ g.userId then g
  else
    let priceChangePercentage : ℚ := |result.getPriceChangePercentage|
    let amountChange : ℤ := jsRound (result.prediction.amount * priceChangePercentage / 100)
    if result.status = .win then
      let g1 := g.updateBalance (amountChange : ℚ)
      { g1 with winStreak := g.winStreak + 1,
                events := g1.events ++ [.result result (g.winStreak + 1)] }
    else
      let g1 := g.updateBalance (-(amountChange : ℚ))
      { g1 with winStreak := 0,
                events := g1.events ++ [.result result 0] }

/-- `Game.start`: no-op when already running; otherwise enters `running`,
emits `round_start` from the current round (falling back to a freshly started
round as `getCurrentRound` does when none exists) and starts the countdown. -/
def Game.start (g : Game) (chartPrice : ℚ) (now : ℤ) : Game :=
  if g.state = .running then g
  else
    match g.gameService.currentRound with
    | some r =>
      { g with state := .running, countdownActive := true,
               events := g.events ++ [.round_start r.startTime r.startPrice] }
    | none =>
      let svc := g.gameService.startNewRound chartPrice now
      match svc.currentRound with
      | some r =>
        { g with gameService := svc, state := .running, countdownActive := true,
                 events := g.events ++ [.round_start r.startTime r.startPrice] }
      | none => g

/-- `Game.stop`: no-op unless running; otherwise enters `finished` and stops
the countdown interval. It does not touch the `GameService` cycle and does
not unsubscribe the settlement callback. -/
def Game.stop (g : Game) : Game :=
  if g.state ≠ .running then g
  else { g with state := .finished, countdownActive := false }

/-- `Game.makePrediction`: throws unless running; throws on `amount <= 0` or
`amount > balance`; otherwise delegates to `GameService.makePrediction`
(rethrowing its error), emits `prediction_made` at the chart's marked price,
and surfaces the created `Prediction`. -/
def Game.makePrediction (g : Game) (direction : PredictionDirection) (amount : ℚ)
    (now : ℤ) (chartPrice : ℚ) : Except GameError (Prediction × Game) :=
  if g.state ≠ .running then .error .gameNotRunning
  else if amount ≤ 0 ∨ amount > g.balance then .error .invalidAmount
  else
    match g.gameService.makePrediction direction amount g.userId now with
    | .error e => .error e
    | .ok (p, svc) =>
      .ok (p, { g with gameService := svc,
                       events := g.events ++ [.prediction_made direction amount chartPrice] })

/-- The round-duration timer firing for this session: the service runs
`endCurrentRound` and notifies its subscribers, so `handleGameResult` runs
once per new result in order, regardless of the session's lifecycle state. -/
def Game.onRoundEnd (g : Game) (currentPrice : ℚ) (now : ℤ) : Game :=
  let step := g.gameService.endCurrentRound currentPrice now
  step.2.foldl Game.handleGameResult { g with gameService := step.1 }

/-- One prediction submission arriving at the service while a round is open. -/
structure PredInput where
  direction : PredictionDirection
  amount : ℚ
  userId : String
  time : ℤ
deriving DecidableEq, Repr

/-- The `Prediction` object `GameService.makePrediction` creates for a
submission. -/
def PredInput.toPrediction (q : PredInput) : Prediction :=
  { direction := q.direction, amount := q.amount, userId := q.userId,
    timestamp := q.time }

/-- Fold a list of submissions through `GameService.makePrediction`; a failed
call leaves the state unchanged (the exception propagates to the caller). -/
def GameServiceState.applyPreds (s : GameServiceState) (qs : List PredInput) :
    GameServiceState :=
  qs.foldl (fun acc q =>
    match acc.makePrediction q.direction q.amount q.userId q.time with
    | .ok x => x.2
    | .error _ => acc) s

/-- The external data of one scheduler cycle: the chart price and clock at
round open, the submissions made while the round is open, and the chart price
and clock when the round-duration timer fires. -/
structure RoundInput where
  openPrice : ℚ
  openTime : ℤ
  preds : List PredInput
  closePrice : ℚ
  closeTime : ℤ
deriving DecidableEq, Repr

/-- The outcomes settlement is specified to produce for one cycle: one
`GameResult` per submission, in submission order. -/
def RoundInput.expectedResults (winMultiplier : ℚ) (ri : RoundInput) : List GameResult :=
  ri.preds.map (fun q =>
    settleResult winMultiplier ri.openPrice ri.closePrice ri.closeTime q.toPrediction)

/-- One scheduler cycle as the timers order it: `startNewRound` (the
`setTimeout` continuation), the submissions while open, then
`endCurrentRound` when the interval fires. Returns the new state and the
results notified to subscribers during this cycle. -/
def GameServiceState.runCycleEmit (s : GameServiceState) (ri : RoundInput) :
    GameServiceState × List GameResult :=
  ((s.startNewRound ri.openPrice ri.openTime).applyPreds ri.preds).endCurrentRound
    ri.closePrice ri.closeTime

/-- A sequence of scheduler cycles; with `roundDurationMs > 0` the interval
and the `setTimeout` continuations strictly alternate on the event loop, so
cycles compose sequentially. The second component is the full notification
log in emission order. -/
def GameServiceState.runCycles : GameServiceState → List RoundInput →
    GameServiceState × List GameResult
  | s, [] => (s, [])
  | s, ri :: ris =>
    let st := s.runCycleEmit ri
    let rest := st.1.runCycles ris
    (rest.1, st.2 ++ rest.2)

/-- The fields of an outcome other than its settlement timestamp:
prediction, reference price, settlement price, result and reward. -/
def outcomeData (r : GameResult) : Prediction × ℚ × ℚ × GameResultStatus × ℚ :=
  (r.prediction, r.startPrice, r.endPrice, r.status, r.reward)

/-- Boolean success test for `Except`. -/
def exceptOk {ε α : Type _} : Except ε α → Bool
  | .ok _ => true
  | .error _ => false

/-- A freshly constructed and started session: chart at 150, round duration
60 s, multiplier 1.8, initial balance 10000, user `player1`, started at the
epoch. -/
def runningGame : Game :=
  (Game.init (GameServiceState.init 150 0 60000 (9/5)) 10000 "player1").start 150 0

end BinaryFun

namespace BinaryFun

/-- Claim C8: for every tick of the price feed, the generated price is strictly
positive: the random-walk step is floor-clamped at 0.01, so the appended
`ChartDataPoint` has `price > 0` regardless of the previous price, the
volatility, the trend and the random draw. -/
theorem price_floor_positive (lastTimestamp fixedTimeStep : ℤ)
    (lastPrice volatility trend u : ℚ) :
    0 < (generateNextDataPoint lastTimestamp fixedTimeStep lastPrice volatility trend u).price := by
  have h : (0 : ℚ) < 1/100 := by norm_num
  exact lt_of_lt_of_le h (le_max_left _ _)

/-- With a positive reference price, the absolute price-change percentage of
the code equals the spec's `|Δ| / reference * 100` form. -/
lemma abs_pct_eq (e s : ℚ) (hs : 0 < s) : |(e - s) / s * 100| = |e - s| / s * 100 := by
  rw [abs_mul, abs_div, abs_of_pos hs]
  norm_num

/-- Balance effect of `handleGameResult` on a winning own result. -/
lemma handleGameResult_balance_win (g : Game) (r : GameResult)
    (hu : r.prediction.userId = g.userId) (hw : r.status = .win) :
    (g.handleGameResult r).balance =
      g.balance + ((jsRound (r.prediction.amount * |r.getPriceChangePercentage| / 100) : ℤ) : ℚ) := by
  simp [Game.handleGameResult, Game.updateBalance, hu, hw]

/-- Balance effect of `handleGameResult` on a non-winning own result: the
computed amount is subtracted. -/
lemma handleGameResult_balance_nonwin (g : Game) (r : GameResult)
    (hu : r.prediction.userId = g.userId) (hw : r.status ≠ .win) :
    (g.handleGameResult r).balance =
      g.balance - ((jsRound (r.prediction.amount * |r.getPriceChangePercentage| / 100) : ℤ) : ℚ) := by
  simp [Game.handleGameResult, Game.updateBalance, hu, hw, sub_eq_add_neg]

/-- Streak effect of `handleGameResult` on a winning own result. -/
lemma handleGameResult_streak_win (g : Game) (r : GameResult)
    (hu : r.prediction.userId = g.userId) (hw : r.status = .win) :
    (g.handleGameResult r).winStreak = g.winStreak + 1 := by
  simp [Game.handleGameResult, Game.updateBalance, hu, hw]

/-- Streak effect of `handleGameResult` on a non-winning own result. -/
lemma handleGameResult_streak_nonwin (g : Game) (r : GameResult)
    (hu : r.prediction.userId = g.userId) (hw : r.status ≠ .win) :
    (g.handleGameResult r).winStreak = 0 := by
  simp [Game.handleGameResult, Game.updateBalance, hu, hw]

/-- `handleGameResult` ignores results belonging to another user. -/
lemma handleGameResult_other_user (g : Game) (r : GameResult)
    (hu : r.prediction.userId ≠ g.userId) : g.handleGameResult r = g := by
  simp [Game.handleGameResult, hu]

/-- Claim C1: for every settled prediction delivered to the session, the signed
payout applied to the balance is `round(amount * changePct / 100)` on a Win
and its negation on a Lose, with `changePct = |settlement - reference| /
reference * 100`; and in the scenario with reference 150, stake 500,
direction Up and settlement 153, the outcome is a Win and the balance rises
by exactly 10 (from 10000 to 10010). -/
theorem payout_proportional_to_change (g : Game) (r : GameResult)
    (hu : r.prediction.userId = g.userId) (hs : 0 < r.startPrice) :
    ((r.status = .win →
        (g.handleGameResult r).balance =
          g.balance +
            ((jsRound (r.prediction.amount *
              (|r.endPrice - r.startPrice| / r.startPrice * 100) / 100) : ℤ) : ℚ)) ∧
     (r.status = .lose →
        (g.handleGameResult r).balance =
          g.balance -
            ((jsRound (r.prediction.amount *
              (|r.endPrice - r.startPrice| / r.startPrice * 100) / 100) : ℤ) : ℚ))) ∧
    (settleResult (9/5) 150 153 60000 (Prediction.mk .up 500 "player1" 0)).status = .win ∧
    ((Game.init (GameServiceState.init 150 0 60000 (9/5)) 10000 "player1").handleGameResult
        (settleResult (9/5) 150 153 60000 (Prediction.mk .up 500 "player1" 0))).balance
      = 10000 + 10 := by
  refine ⟨⟨?_, ?_⟩, ?_, ?_⟩
  · intro hw
    rw [handleGameResult_balance_win g r hu hw, GameResult.getPriceChangePercentage,
      abs_pct_eq _ _ hs]
  · intro hl
    have hw : r.status ≠ .win := by rw [hl]; intro hc; cases hc
    rw [handleGameResult_balance_nonwin g r hu hw, GameResult.getPriceChangePercentage,
      abs_pct_eq _ _ hs]
  · rfl
  · norm_num [Game.init, GameServiceState.init, GameServiceState.startNewRound,
      Game.handleGameResult, Game.updateBalance, settleResult, GameResult.make,
      GameResult.setReward, GameResult.getPriceChangePercentage, getActualDirection,
      calculateStatus, Prediction.isCorrect, jsFalsy, jsRound, GameRound.make]

/-- Witness for C1 at the spec's scenario: reference 150, stake 500, Up,
settlement 153, on the freshly initialized session. -/
theorem payout_proportional_to_change_witness :
    ((settleResult (9/5) 150 153 60000 (Prediction.mk .up 500 "player1" 0)).prediction.userId =
        (Game.init (GameServiceState.init 150 0 60000 (9/5)) 10000 "player1").userId) ∧
    (0 < (settleResult (9/5) 150 153 60000 (Prediction.mk .up 500 "player1" 0)).startPrice) ∧
    ((((settleResult (9/5) 150 153 60000 (Prediction.mk .up 500 "player1" 0)).status = .win →
        ((Game.init (GameServiceState.init 150 0 60000 (9/5)) 10000 "player1").handleGameResult
            (settleResult (9/5) 150 153 60000 (Prediction.mk .up 500 "player1" 0))).balance =
          (Game.init (GameServiceState.init 150 0 60000 (9/5)) 10000 "player1").balance +
            ((jsRound ((settleResult (9/5) 150 153 60000 (Prediction.mk .up 500 "player1" 0)).prediction.amount *
              (|(settleResult (9/5) 150 153 60000 (Prediction.mk .up 500 "player1" 0)).endPrice -
                  (settleResult (9/5) 150 153 60000 (Prediction.mk .up 500 "player1" 0)).startPrice| /
                (settleResult (9/5) 150 153 60000 (Prediction.mk .up 500 "player1" 0)).startPrice * 100) / 100) : ℤ) : ℚ)) ∧
      ((settleResult (9/5) 150 153 60000 (Prediction.mk .up 500 "player1" 0)).status = .lose →
        ((Game.init (GameServiceState.init 150 0 60000 (9/5)) 10000 "player1").handleGameResult
            (settleResult (9/5) 150 153 60000 (Prediction.mk .up 500 "player1" 0))).balance =
          (Game.init (GameServiceState.init 150 0 60000 (9/5)) 10000 "player1").balance -
            ((jsRound ((settleResult (9/5) 150 153 60000 (Prediction.mk .up 500 "player1" 0)).prediction.amount *
              (|(settleResult (9/5) 150 153 60000 (Prediction.mk .up 500 "player1" 0)).endPrice -
                  (settleResult (9/5) 150 153 60000 (Prediction.mk .up 500 "player1" 0)).startPrice| /
                (settleResult (9/5) 150 153 60000 (Prediction.mk .up 500 "player1" 0)).startPrice * 100) / 100) : ℤ) : ℚ))) ∧
     (settleResult (9/5) 150 153 60000 (Prediction.mk .up 500 "player1" 0)).status = .win ∧
     ((Game.init (GameServiceState.init 150 0 60000 (9/5)) 10000 "player1").handleGameResult
        (settleResult (9/5) 150 153 60000 (Prediction.mk .up 500 "player1" 0))).balance
      = 10000 + 10) :=
  ⟨rfl, by norm_num [settleResult, GameResult.make, GameResult.setReward, jsFalsy,
      calculateStatus, getActualDirection, Prediction.isCorrect],
    payout_proportional_to_change _ _ rfl (by norm_num [settleResult, GameResult.make,
      GameResult.setReward, jsFalsy, calculateStatus, getActualDirection, Prediction.isCorrect])⟩

/-- Claim C5: with a (positive) settlement price equal to the reference price,
`getActualDirection` classifies the round as Down, so a Down prediction on a
flat round settles as a Win and an Up prediction settles as a Lose. -/
theorem tie_resolves_down (p : Prediction) (price : ℚ) (t : ℤ) (hpos : 0 < price) :
    getActualDirection price price = .down ∧
    (p.direction = .down → (GameResult.make p price (some price) t).status = .win) ∧
    (p.direction = .up → (GameResult.make p price (some price) t).status = .lose) := by
  have hne : (price == (0 : ℚ)) = false := by
    simp [beq_iff_eq]
    exact ne_of_gt hpos
  have hdir : getActualDirection price price = .down := by
    simp [getActualDirection]
  refine ⟨hdir, ?_, ?_⟩
  · intro hd
    simp [GameResult.make, jsFalsy, hne, calculateStatus, hdir, Prediction.isCorrect, hd]
  · intro hu
    simp [GameResult.make, jsFalsy, hne, calculateStatus, hdir, Prediction.isCorrect, hu]

/-- Witness for C5: a Down prediction on a flat round at price 150 wins. -/
theorem tie_resolves_down_witness :
    (0 : ℚ) < 150 ∧
    (getActualDirection 150 150 = .down ∧
     ((Prediction.mk .down 100 "player1" 0).direction = .down →
        (GameResult.make (Prediction.mk .down 100 "player1" 0) 150 (some 150) 0).status = .win) ∧
     ((Prediction.mk .down 100 "player1" 0).direction = .up →
        (GameResult.make (Prediction.mk .down 100 "player1" 0) 150 (some 150) 0).status = .lose)) :=
  ⟨by norm_num, tie_resolves_down (Prediction.mk .down 100 "player1" 0) 150 0 (by norm_num)⟩

/-- Claim C7: for every settled outcome delivered to the session for its own
user, a Win sets `winStreak` to exactly its pre-outcome value plus 1 and a
Lose resets it to 0; and no other operation — balance updates, `stop`,
`start`, a successful `makePrediction`, or delivery of another user's
outcome — changes `winStreak`. -/
theorem streak_monotonicity (g : Game) (r : GameResult)
    (hu : r.prediction.userId = g.userId) :
    ((r.status = .win → (g.handleGameResult r).winStreak = g.winStreak + 1) ∧
     (r.status = .lose → (g.handleGameResult r).winStreak = 0)) ∧
    (∀ (g₁ : Game) (c : ℚ), (g₁.updateBalance c).winStreak = g₁.winStreak) ∧
    (∀ (g₁ : Game), (g₁.stop).winStreak = g₁.winStreak) ∧
    (∀ (g₁ : Game) (cp : ℚ) (t : ℤ), (g₁.start cp t).winStreak = g₁.winStreak) ∧
    (∀ (g₁ : Game) (d : PredictionDirection) (a : ℚ) (t : ℤ) (cp : ℚ)
        (p : Prediction) (g₂ : Game),
        g₁.makePrediction d a t cp = .ok (p, g₂) → g₂.winStreak = g₁.winStreak) ∧
    (∀ (g₁ : Game) (r₁ : GameResult), r₁.prediction.userId ≠ g₁.userId →
        (g₁.handleGameResult r₁).winStreak = g₁.winStreak) := by
  refine ⟨⟨?_, ?_⟩, ?_, ?_, ?_, ?_, ?_⟩
  · intro hw
    exact handleGameResult_streak_win g r hu hw
  · intro hl
    have hw : r.status ≠ .win := by rw [hl]; intro hc; cases hc
    exact handleGameResult_streak_nonwin g r hu hw
  · intro g₁ c
    simp [Game.updateBalance]
  · intro g₁
    simp only [Game.stop]
    split <;> rfl
  · intro g₁ cp t
    simp only [Game.start]
    split
    · rfl
    · cases hr : g₁.gameService.currentRound with
      | some r₁ => simp [hr]
      | none => simp [hr, GameServiceState.startNewRound]
  · intro g₁ d a t cp p g₂ h
    simp only [Game.makePrediction] at h
    split at h
    · cases h
    · split at h
      · cases h
      · cases hm : g₁.gameService.makePrediction d a g₁.userId t with
        | error e => rw [hm] at h; cases h
        | ok x => rw [hm] at h; cases h; rfl
  · intro g₁ r₁ hne
    rw [handleGameResult_other_user g₁ r₁ hne]

/-- Witness for C7 on a concrete winning outcome for the session's own user. -/
theorem streak_monotonicity_witness :
    ((settleResult (9/5) 150 153 60000 (Prediction.mk .up 500 "player1" 0)).prediction.userId =
        (Game.init (GameServiceState.init 150 0 60000 (9/5)) 10000 "player1").userId) ∧
    ((((settleResult (9/5) 150 153 60000 (Prediction.mk .up 500 "player1" 0)).status = .win →
        ((Game.init (GameServiceState.init 150 0 60000 (9/5)) 10000 "player1").handleGameResult
            (settleResult (9/5) 150 153 60000 (Prediction.mk .up 500 "player1" 0))).winStreak =
          (Game.init (GameServiceState.init 150 0 60000 (9/5)) 10000 "player1").winStreak + 1) ∧
      ((settleResult (9/5) 150 153 60000 (Prediction.mk .up 500 "player1" 0)).status = .lose →
        ((Game.init (GameServiceState.init 150 0 60000 (9/5)) 10000 "player1").handleGameResult
            (settleResult (9/5) 150 153 60000 (Prediction.mk .up 500 "player1" 0))).winStreak = 0)) ∧
     (∀ (g₁ : Game) (c : ℚ), (g₁.updateBalance c).winStreak = g₁.winStreak) ∧
     (∀ (g₁ : Game), (g₁.stop).winStreak = g₁.winStreak) ∧
     (∀ (g₁ : Game) (cp : ℚ) (t : ℤ), (g₁.start cp t).winStreak = g₁.winStreak) ∧
     (∀ (g₁ : Game) (d : PredictionDirection) (a : ℚ) (t : ℤ) (cp : ℚ)
         (p : Prediction) (g₂ : Game),
         g₁.makePrediction d a t cp = .ok (p, g₂) → g₂.winStreak = g₁.winStreak) ∧
     (∀ (g₁ : Game) (r₁ : GameResult), r₁.prediction.userId ≠ g₁.userId →
         (g₁.handleGameResult r₁).winStreak = g₁.winStreak)) :=
  ⟨rfl, streak_monotonicity (Game.init (GameServiceState.init 150 0 60000 (9/5)) 10000 "player1")
    (settleResult (9/5) 150 153 60000 (Prediction.mk .up 500 "player1" 0)) rfl⟩

/-- Claim C9: on a running session, `makePrediction` fails with the invalid
amount error whenever `amount ≤ 0` or `amount > balance` (recording nothing,
since no new state is returned); otherwise, with the current round accepting
bets, it records the created `Prediction` into the round and returns it. -/
theorem predict_validation (g : Game) (direction : PredictionDirection) (amount : ℚ)
    (now : ℤ) (chartPrice : ℚ) (hrun : g.state = .running) :
    ((amount ≤ 0 ∨ amount > g.balance) →
        g.makePrediction direction amount now chartPrice = .error .invalidAmount) ∧
    (∀ r : GameRound, 0 < amount → amount ≤ g.balance →
        g.gameService.currentRound = some r → r.isActive = true →
        g.makePrediction direction amount now chartPrice =
          .ok (Prediction.mk direction amount g.userId now,
            { g with
              gameService :=
                { g.gameService with
                  currentRound :=
                    some
                      { r with
                        predictions :=
                          r.predictions ++
                            [Prediction.mk direction amount g.userId now] } },
              events :=
                g.events ++ [.prediction_made direction amount chartPrice] })) := by
  constructor
  · intro hbad
    simp [Game.makePrediction, hrun, hbad]
  · intro r hpos hle hr ha
    have hcond : ¬(amount ≤ 0 ∨ amount > g.balance) := by
      push_neg
      exact ⟨hpos, hle⟩
    simp only [Game.makePrediction, GameServiceState.makePrediction, hr]
    rw [if_neg (by simp [hrun]), if_neg hcond]
    simp [GameRound.addPrediction, ha]

/-- Witness for C9: on the started session, `amount = 0` and an amount above
the balance both raise the invalid-amount error. -/
theorem predict_validation_witness :
    runningGame.state = .running ∧
    runningGame.makePrediction .up 0 5000 150 = .error .invalidAmount ∧
    runningGame.makePrediction .up 20000 5000 150 = .error .invalidAmount :=
  ⟨rfl,
    (predict_validation runningGame .up 0 5000 150 rfl).1 (Or.inl le_rfl),
    (predict_validation runningGame .up 20000 5000 150 rfl).1 (Or.inr (by decide))⟩

/-- Claim C3 counterexample: the close-time check is the round's activity
flag, not the clock. A round opened at 0 with duration 60000 has
`endTime = 60000`, yet a prediction submitted at time 61000 — after
`closesAt` but before the scheduler's timer has closed the round — is
accepted and recorded, not rejected. -/
theorem late_bet_after_closesAt_accepted :
    (GameRound.make 0 60000 150).endTime < 61000 ∧
    (GameServiceState.mk (some (GameRound.make 0 60000 150)) [] 60000 (9/5)).makePrediction
        .up 100 "player1" 61000 =
      .ok (Prediction.mk .up 100 "player1" 61000,
        GameServiceState.mk
          (some (GameRound.mk 0 60000 150 [Prediction.mk .up 100 "player1" 61000] true))
          [] 60000 (9/5)) :=
  ⟨by decide, rfl⟩

/-- Claim C3 (amended): a prediction submitted once the current round has
been closed by the scheduler (or when no round exists) fails with the
round-not-active error raised to the caller, and no state recording it is
produced. -/
theorem closed_round_bet_rejected (s : GameServiceState) (d : PredictionDirection)
    (a : ℚ) (uid : String) (now : ℤ)
    (h : ∀ r, s.currentRound = some r → r.isActive = false) :
    s.makePrediction d a uid now = .error .roundNotActive := by
  cases hr : s.currentRound with
  | none => simp [GameServiceState.makePrediction, hr]
  | some r => simp [GameServiceState.makePrediction, hr, h r hr]

/-- Witness for the amended C3 on a concrete closed round. -/
theorem closed_round_bet_rejected_witness :
    (∀ r, (GameServiceState.mk (some (GameRound.mk 0 60000 150 [] false)) [] 60000
        (9/5)).currentRound = some r → r.isActive = false) ∧
    (GameServiceState.mk (some (GameRound.mk 0 60000 150 [] false)) [] 60000
        (9/5)).makePrediction .up 100 "player1" 70000 = .error .roundNotActive :=
  ⟨by intro r hr; cases hr; rfl,
    closed_round_bet_rejected _ .up 100 "player1" 70000 (by intro r hr; cases hr; rfl)⟩

/-- The state reached from `runningGame` after a successful 100-stake Up
prediction at time 5000: mid-round, one pending prediction by the user. -/
def predictedGame : Game :=
  Game.mk
    (GameServiceState.mk
      (some (GameRound.mk 0 60000 150 [Prediction.mk .up 100 "player1" 5000] true))
      [] 60000 (9/5))
    .running 10000 "player1" 0 true
    [.round_start 0 150, .prediction_made .up 100 150]

/-- Claim C4 counterexample: `stop()` mid-round does not prevent the round's
`result` events. From the started session, the user bets 100 Up, `stop()` is
called (state becomes finished, countdown cancelled), and when the game
service's round timer later fires, a `result` event for that round's
prediction is emitted anyway: `stop` neither cancels the service cycle nor
detaches the settlement callback, which has no liveness guard. -/
theorem stop_midround_still_emits_result :
    runningGame.makePrediction .up 100 5000 150 =
      .ok (Prediction.mk .up 100 "player1" 5000, predictedGame) ∧
    predictedGame.stop.state = .finished ∧
    predictedGame.stop.countdownActive = false ∧
    (predictedGame.stop.onRoundEnd 153 60000).events.countP GameEvent.isResult =
      predictedGame.events.countP GameEvent.isResult + 1 :=
  ⟨rfl, by decide, by decide, by decide⟩

/-- The prediction inside a settled result is the settled prediction. -/
lemma settleResult_prediction (m sp cp : ℚ) (t : ℤ) (p : Prediction) :
    (settleResult m sp cp t p).prediction = p := by
  simp only [settleResult, GameResult.make, GameResult.setReward]
  split <;> first
  | rfl
  | (split <;> rfl)

/-- `handleGameResult` emits exactly one `result` event for an own result
and none for another user's. -/
lemma handleGameResult_events_count (g : Game) (r : GameResult) :
    (g.handleGameResult r).events.countP GameEvent.isResult =
      g.events.countP GameEvent.isResult +
        (if r.prediction.userId = g.userId then 1 else 0) := by
  by_cases hu : r.prediction.userId = g.userId
  · by_cases hw : r.status = .win <;>
      simp [Game.handleGameResult, Game.updateBalance, hu, hw,
        List.countP_append, List.countP_cons, GameEvent.isResult]
  · simp [handleGameResult_other_user g r hu, hu]

/-- `handleGameResult` never changes the session's user id. -/
lemma handleGameResult_userId (g : Game) (r : GameResult) :
    (g.handleGameResult r).userId = g.userId := by
  simp only [Game.handleGameResult, Game.updateBalance]
  split
  · rfl
  · split <;> rfl

/-- Folding a batch of results through `handleGameResult` emits one `result`
event per own result in the batch. -/
lemma foldl_handleGameResult_events_count (rs : List GameResult) (g : Game) :
    (rs.foldl Game.handleGameResult g).events.countP GameEvent.isResult =
      g.events.countP GameEvent.isResult +
        rs.countP (fun r => r.prediction.userId == g.userId) := by
  induction rs generalizing g with
  | nil => simp
  | cons r rs ih =>
    simp only [List.foldl_cons, List.countP_cons]
    rw [ih (g.handleGameResult r), handleGameResult_events_count g r,
      handleGameResult_userId g r]
    by_cases hu : r.prediction.userId = g.userId <;> (simp [hu]; try omega)

/-- Settling a round's predictions preserves the per-user count. -/
lemma countP_map_settleResult (m sp cp : ℚ) (t : ℤ) (uid : String)
    (l : List Prediction) :
    ((l.map (settleResult m sp cp t)).countP (fun res => res.prediction.userId == uid)) =
      l.countP (fun p => p.userId == uid) := by
  induction l with
  | nil => rfl
  | cons p l ih => simp [List.countP_cons, ih, settleResult_prediction]

/-- Claim C4 (amended): `stop()` mid-round enters the finished state and
cancels the countdown timer, but it does not cancel the game service's round
timer or detach the settlement subscription: when the round timer fires, one
`result` event still fires for each prediction of the in-flight round
belonging to the session's user. -/
theorem stop_cancels_countdown_not_settlement (g : Game) (price : ℚ) (t : ℤ)
    (hrun : g.state = .running) :
    (g.stop).state = .finished ∧ (g.stop).countdownActive = false ∧
    ((g.stop).onRoundEnd price t).events.countP GameEvent.isResult =
      g.events.countP GameEvent.isResult +
        (match g.gameService.currentRound with
         | none => 0
         | some r => r.predictions.countP (fun p => p.userId == g.userId)) := by
  have hstop : g.stop = { g with state := .finished, countdownActive := false } := by
    simp [Game.stop, hrun]
  refine ⟨by rw [hstop], by rw [hstop], ?_⟩
  rw [hstop]
  cases hr : g.gameService.currentRound with
  | none =>
    simp [Game.onRoundEnd, GameServiceState.endCurrentRound, hr]
  | some r =>
    simp only [Game.onRoundEnd, GameServiceState.endCurrentRound, hr,
      GameRound.close, foldl_handleGameResult_events_count]
    rw [countP_map_settleResult]

/-- Witness for the amended C4 at the concrete mid-round state. -/
theorem stop_cancels_countdown_not_settlement_witness :
    predictedGame.state = .running ∧
    (predictedGame.stop.state = .finished ∧
     predictedGame.stop.countdownActive = false ∧
     (predictedGame.stop.onRoundEnd 153 60000).events.countP GameEvent.isResult =
       predictedGame.events.countP GameEvent.isResult +
         (match predictedGame.gameService.currentRound with
          | none => 0
          | some r => r.predictions.countP (fun p => p.userId == predictedGame.userId))) :=
  ⟨rfl, stop_cancels_countdown_not_settlement predictedGame 153 60000 rfl⟩

/-- Submissions folded into an open round are all recorded, in order. -/
lemma applyPreds_mk (qs : List PredInput) (st en : ℤ) (sp : ℚ) (ps : List Prediction)
    (res : List GameResult) (dur : ℤ) (m : ℚ) :
    (GameServiceState.mk (some (GameRound.mk st en sp ps true)) res dur m).applyPreds qs =
      GameServiceState.mk
        (some (GameRound.mk st en sp (ps ++ qs.map PredInput.toPrediction) true))
        res dur m := by
  induction qs generalizing ps with
  | nil => simp [GameServiceState.applyPreds]
  | cons q qs ih =>
    simp only [GameServiceState.applyPreds, List.foldl_cons] at ih ⊢
    refine (ih (ps ++ [q.toPrediction])).trans ?_
    simp

/-- `endCurrentRound` on a present round: close it, settle its predictions
in order, append to history and notify exactly the new results. -/
lemma endCurrentRound_mk (st en : ℤ) (sp : ℚ) (ps : List Prediction) (act : Bool)
    (res : List GameResult) (dur : ℤ) (m : ℚ) (price : ℚ) (t : ℤ) :
    (GameServiceState.mk (some (GameRound.mk st en sp ps act)) res dur m).endCurrentRound
        price t =
      (GameServiceState.mk (some (GameRound.mk st en sp ps false))
        (res ++ ps.map (settleResult m sp price t)) dur m,
       ps.map (settleResult m sp price t)) := rfl

/-- One full scheduler cycle from any state: the notified results are exactly
the expected one-per-submission settlement of that cycle's round. -/
lemma runCycleEmit_mk (cr : Option GameRound) (res : List GameResult) (dur : ℤ)
    (m : ℚ) (ri : RoundInput) :
    (GameServiceState.mk cr res dur m).runCycleEmit ri =
      (GameServiceState.mk
        (some (GameRound.mk ri.openTime (ri.openTime + dur) ri.openPrice
          (ri.preds.map PredInput.toPrediction) false))
        (res ++ RoundInput.expectedResults m ri) dur m,
       RoundInput.expectedResults m ri) := by
  show ((GameServiceState.mk
      (some (GameRound.mk ri.openTime (ri.openTime + dur) ri.openPrice [] true))
      res dur m).applyPreds ri.preds).endCurrentRound ri.closePrice ri.closeTime = _
  rw [applyPreds_mk]
  rw [endCurrentRound_mk]
  simp [RoundInput.expectedResults, List.map_map, Function.comp]

/-- Claim C2: across any sequence of scheduler cycles, the notification log
is exactly the per-round expected settlements concatenated in round order —
every round that reaches settlement contributes exactly one Outcome per
prediction recorded in it, exactly once — and the results history is the
prior history extended by the same list, so no Outcome is re-derived or
re-emitted on a later cycle. -/
theorem exactly_once_settlement (s : GameServiceState) (ris : List RoundInput) :
    (s.runCycles ris).2 =
      (ris.map (RoundInput.expectedResults s.winMultiplier)).flatten ∧
    (s.runCycles ris).1.results =
      s.results ++ (ris.map (RoundInput.expectedResults s.winMultiplier)).flatten := by
  obtain ⟨cr, res, dur, m⟩ := s
  induction ris generalizing cr res with
  | nil => simp [GameServiceState.runCycles]
  | cons ri ris ih =>
    simp only [GameServiceState.runCycles, runCycleEmit_mk]
    obtain ⟨ih1, ih2⟩ :=
      ih (some (GameRound.mk ri.openTime (ri.openTime + dur) ri.openPrice
        (ri.preds.map PredInput.toPrediction) false))
        (res ++ RoundInput.expectedResults m ri)
    constructor
    · simp [ih1]
    · simp [ih2]

/-- Settlement at two different clock times differs at most in the stored
timestamp: every other field of the outcome is the same. -/
lemma settleResult_timestamp_irrel (m sp cp : ℚ) (t t' : ℤ) (p : Prediction) :
    settleResult m sp cp t p = { settleResult m sp cp t' p with timestamp := t } := by
  simp only [settleResult, GameResult.make, GameResult.setReward]
  by_cases h1 : jsFalsy (some cp) = true
  · simp only [h1, if_true]
    split <;> simp_all
  · simp only [h1, if_false, Bool.false_eq_true]
    split <;> simp_all

/-- The timestamp-free data of a settled outcome does not depend on the
settlement clock. -/
lemma outcomeData_settleResult_time (m sp cp : ℚ) (t t' : ℤ) (p : Prediction) :
    outcomeData (settleResult m sp cp t p) = outcomeData (settleResult m sp cp t' p) := by
  rw [settleResult_timestamp_irrel m sp cp t t']
  rfl

/-- Claim C6: settlement is a pure function of the round and the settlement
price. Replaying `endCurrentRound` on the same round with the same price at
two different clock times notifies outcome sequences with identical
predictions, reference and settlement prices, results and rewards (only the
`settledAt` timestamps differ); and the sequence is exactly one outcome per
prediction of the round, in submission order, produced totally (no error
path). -/
theorem settlement_deterministic (s : GameServiceState) (r : GameRound) (price : ℚ)
    (t₁ t₂ : ℤ) (hr : s.currentRound = some r) :
    ((s.endCurrentRound price t₁).2.map outcomeData =
       (s.endCurrentRound price t₂).2.map outcomeData) ∧
    ((s.endCurrentRound price t₁).2 =
       r.predictions.map (settleResult s.winMultiplier r.startPrice price t₁)) := by
  have h2 : ∀ t : ℤ, (s.endCurrentRound price t).2 =
      r.predictions.map (settleResult s.winMultiplier r.startPrice price t) := by
    intro t
    simp [GameServiceState.endCurrentRound, hr, GameRound.close]
  refine ⟨?_, h2 t₁⟩
  rw [h2 t₁, h2 t₂, List.map_map, List.map_map]
  exact List.map_congr_left (fun p _ =>
    outcomeData_settleResult_time s.winMultiplier r.startPrice price t₁ t₂ p)

/-- Witness for C6 on the concrete mid-round state, replayed at clock times
60000 and 99999. -/
theorem settlement_deterministic_witness :
    (predictedGame.gameService.currentRound =
      some (GameRound.mk 0 60000 150 [Prediction.mk .up 100 "player1" 5000] true)) ∧
    (((predictedGame.gameService.endCurrentRound 153 60000).2.map outcomeData =
        (predictedGame.gameService.endCurrentRound 153 99999).2.map outcomeData) ∧
     ((predictedGame.gameService.endCurrentRound 153 60000).2 =
        (GameRound.mk 0 60000 150 [Prediction.mk .up 100 "player1" 5000] true).predictions.map
          (settleResult predictedGame.gameService.winMultiplier
            (GameRound.mk 0 60000 150 [Prediction.mk .up 100 "player1" 5000] true).startPrice
            153 60000))) :=
  ⟨rfl, settlement_deterministic predictedGame.gameService
    (GameRound.mk 0 60000 150 [Prediction.mk .up 100 "player1" 5000] true) 153 60000 99999 rfl⟩

/-- A freshly started session with only 500 balance, chart at 100. -/
def lowBalanceGame : Game :=
  (Game.init (GameServiceState.init 100 0 60000 (9/5)) 500 "player1").start 100 0

/-- The state after `lowBalanceGame` accepts a Down prediction staking the
full 500 balance at time 1000. -/
def lowBalancePredicted : Game :=
  Game.mk
    (GameServiceState.mk
      (some (GameRound.mk 0 60000 100 [Prediction.mk .down 500 "player1" 1000] true))
      [] 60000 (9/5))
    .running 500 "player1" 0 true
    [.round_start 0 100, .prediction_made .down 500 100]

/-- Claim C10: the loss deducted on a losing outcome is not capped by the
stake. The 500 stake passes `makePrediction` validation (it equals the
balance), the reference price 100 moves to 250 — a 150% change — so the
deduction `round(500 * 150 / 100) = 750` exceeds the 500 stake, and the
session balance goes negative: 500 - 750 = -250 < 0. -/
theorem loss_exceeds_stake_negative_balance :
    lowBalanceGame.makePrediction .down 500 1000 100 =
      .ok (Prediction.mk .down 500 "player1" 1000, lowBalancePredicted) ∧
    jsRound ((500 : ℚ) * |((250 : ℚ) - 100) / 100 * 100| / 100) = 750 ∧
    (Prediction.mk .down 500 "player1" 1000).amount <
      ((jsRound ((500 : ℚ) * |((250 : ℚ) - 100) / 100 * 100| / 100) : ℤ) : ℚ) ∧
    (lowBalancePredicted.onRoundEnd 250 60000).balance = -250 ∧
    (lowBalancePredicted.onRoundEnd 250 60000).balance < 0 := by
  have hb : (lowBalancePredicted.onRoundEnd 250 60000).balance =
      500 - ((jsRound ((500 : ℚ) *
        |((250 : ℚ) - 100) / 100 * 100| / 100) : ℤ) : ℚ) := by
    rw [show lowBalancePredicted.onRoundEnd 250 60000 =
        Game.handleGameResult
          { lowBalancePredicted with
            gameService := (lowBalancePredicted.gameService.endCurrentRound 250 60000).1 }
          (GameResult.mk (Prediction.mk .down 500 "player1" 1000) 100 250 60000 0 .lose)
        from rfl]
    rw [handleGameResult_balance_nonwin _ _ rfl (by decide)]
    norm_num [GameResult.getPriceChangePercentage, lowBalancePredicted]
  refine ⟨rfl, by norm_num [jsRound], by norm_num [jsRound], ?_, ?_⟩
  · rw [hb]
    norm_num [jsRound]
  · rw [hb]
    norm_num [jsRound]

end BinaryFun
